import Mathlib

/-!
Shallow embedding of `src/mcp_server.py` (the MCP server exposing read-only
query tools over the Prow CI job-reporting API).

Modelling conventions:
* JSON job records are modelled as Lean structures with `Option` fields for
  keys the source accesses leniently (`dict.get`), and a plain `String` for
  `metadata.name`, which the source indexes unconditionally
  (`job["metadata"]["name"]`) and which the upstream schema always populates.
* The network is an external collaborator: each tool takes the outcome of its
  network call(s) as an explicit argument.  `Except String α` models a Python
  call that either returns `α` or raises an exception with message `String`;
  an `Option` layer models Python truthiness of the decoded response
  (`if not response`).
* `dateutil.parser.parse` is an external library; it is passed in as a
  parameter `parse : String → Except String Nat` (a timestamp parser that
  either yields a totally ordered time value or raises).
* `list.sort(key=..., reverse=True)` in CPython first computes the key of
  every element in list order (raising on the first failure) and then runs a
  stable descending sort.  This is modelled by `computeKeys` (decoration,
  propagating the first parse exception) followed by `sortDesc`, a stable
  descending insertion sort on the decorated pairs.
* Python dict results are modelled as structures whose fields are `Option`s:
  `none` means the key is absent from the returned dict (or bound to `None`).
-/

namespace ProwMcp

/-- `status` facet of a prowjob record; each field models the presence of the
corresponding JSON key (`"startTime" in job.get("status", {})`,
`status.get("state")`, ...). -/
structure JobStatus where
  state : Option String
  startTime : Option String
  completionTime : Option String
  url : Option String
  build_id : Option String
deriving DecidableEq

/-- One element of the `items` array returned by `GET {PROW_URL}/prowjobs.js`.
`spec_job` models `job.get("spec", \x7b\x7d).get("job")`. -/
structure JobRecord where
  metadata_name : String
  spec_job : Option String
  status : JobStatus
deriving DecidableEq

/-- The decoded JSON body of `prowjobs.js`; `items` models
`response.get("items", [])`. -/
structure ProwResponse where
  items : List JobRecord
deriving DecidableEq

/-- Python truthiness of an optional string: `None` and `""` are falsy. -/
def pyTruthy : Option String → Bool
  | none => false
  | some s => s ≠ ""

/-- `PROW_URL` constant of the source. -/
def PROW_URL : String := "https://prow.ci.openshift.org"

/-- `GCS_URL` constant of the source. -/
def GCS_URL : String :=
  "https://gcsweb-ci.apps.ci.l2s4.p1.openshiftapps.com/gcs/test-platform-results/logs"

/-- Header list built by `make_request`: when `API_KEY` is configured (truthy)
the source sets `Authorization` and `Accept`; otherwise it sets
`headers = \x7b\x7d`, i.e. the empty header list. -/
def make_request_headers (api_key : Option String) : List (String × String) :=
  if pyTruthy api_key then
    [("Authorization", "Bearer " ++ api_key.getD ""), ("Accept", "application/json")]
  else
    []

/-- Result dict of `get_latest_job_run`: either the populated job-info dict or
an `\x7berror: ...\x7d` dict. -/
structure LatestDict where
  error : Option String
  job_id : Option String
  state : Option String
  start : Option String
  completion : Option String
  url : Option String
  build_id : Option String
deriving DecidableEq

/-- The `\x7b"error": msg\x7d` dict of `get_latest_job_run`. -/
def mkLatestErr (msg : String) : LatestDict :=
  { error := some msg, job_id := none, state := none, start := none,
    completion := none, url := none, build_id := none }

/-- The success dict of `get_latest_job_run`, built from the latest record. -/
def mkLatestOk (latest : JobRecord) : LatestDict :=
  { error := none,
    job_id := some latest.metadata_name,
    state := latest.status.state,
    start := latest.status.startTime,
    completion := latest.status.completionTime,
    url := latest.status.url,
    build_id := latest.status.build_id }

/-- The filter predicate of `get_latest_job_run`:
`job.get("spec", \x7b\x7d).get("job") == job_name and "startTime" in job.get("status", \x7b\x7d)`. -/
def matchesJob (job_name : String) (j : JobRecord) : Bool :=
  j.spec_job == some job_name && j.status.startTime.isSome

/-- The `matching_jobs` list comprehension of `get_latest_job_run`. -/
def filterMatching (items : List JobRecord) (job_name : String) : List JobRecord :=
  items.filter (matchesJob job_name)

/-- `job["status"]["startTime"]` on a record that passed the filter (the
filter guarantees the key is present, so the default is never consulted). -/
def startStr (j : JobRecord) : String := j.status.startTime.getD ""

/-- The parsed sort key of a record, defaulting to 0 where the parser raises
(only ever used under a hypothesis that the parse succeeded). -/
def keyD (parse : String → Except String Nat) (j : JobRecord) : Nat :=
  match parse (startStr j) with
  | .ok k => k
  | .error _ => 0

/-- Key decoration step of CPython's `list.sort(key=...)`: compute
`parse_date(job["status"]["startTime"])` for every record in list order,
propagating the first exception. -/
def computeKeys (parse : String → Except String Nat) :
    List JobRecord → Except String (List (Nat × JobRecord))
  | [] => .ok []
  | j :: js =>
    match parse (startStr j) with
    | .error e => .error e
    | .ok k =>
      match computeKeys parse js with
      | .error e => .error e
      | .ok rest => .ok ((k, j) :: rest)

/-- Insert `x` into a descending-sorted list, after every element whose key is
strictly greater — so an element inserted from earlier in the original list
ends up before later elements of equal key (stability). -/
def insertDesc (k : α → Nat) (x : α) : List α → List α
  | [] => [x]
  | y :: ys => if k x < k y then y :: insertDesc k x ys else x :: y :: ys

/-- Stable descending sort by key — the behaviour of
`list.sort(key=..., reverse=True)`. -/
def sortDesc (k : α → Nat) : List α → List α
  | [] => []
  | x :: xs => insertDesc k x (sortDesc k xs)

/-- The first element of maximal key, i.e. the element a stable descending
sort puts first. -/
def firstMax (k : α → Nat) : List α → Option α
  | [] => none
  | x :: xs =>
    match firstMax k xs with
    | none => some x
    | some m => if k m ≤ k x then some x else some m

/-- `matching_jobs.sort(key=..., reverse=True); latest = matching_jobs[0]`:
decorate with parsed keys (raising propagates as `.error`), stable-sort
descending, take the head.  The `.ok []` branch is unreachable for a
non-empty input. -/
def pickLatest (parse : String → Except String Nat) (matching : List JobRecord) :
    Except String JobRecord :=
  match computeKeys parse matching with
  | .error e => .error e
  | .ok [] => .error "empty"
  | .ok (p :: ps) => .ok ((sortDesc (fun q => q.1) (p :: ps)).headD p).2

/-- The `get_latest_job_run` tool.  `resp` is the outcome of
`make_request(f"\x7bPROW_URL\x7d/prowjobs.js")`: an exception message, a falsy
response, or the decoded body. -/
def get_latest_job_run (parse : String → Except String Nat)
    (resp : Except String (Option ProwResponse)) (job_name : String) : LatestDict :=
  match resp with
  | .error e => mkLatestErr ("Failed to fetch job info: " ++ e)
  | .ok none => mkLatestErr "No response from Prow API"
  | .ok (some r) =>
    match filterMatching r.items job_name with
    | [] => mkLatestErr ("No matching job found for: " ++ job_name)
    | j :: js =>
      match pickLatest parse (j :: js) with
      | .error e => mkLatestErr ("Failed to fetch job info: " ++ e)
      | .ok latest => mkLatestOk latest

/-- Result dict shared by `get_job_logs` and `get_build_logs`: either the
populated log bundle or an error dict (which, for `get_build_logs`, still
carries the artifacts URL). -/
structure BuildLogsDict where
  error : Option String
  build_id : Option String
  job_name : Option String
  logs : Option String
  artifacts_url : Option String
deriving DecidableEq

/-- The `\x7b"error": msg\x7d` dicts of `get_job_logs` (no artifacts URL key). -/
def mkLogsErr (msg : String) : BuildLogsDict :=
  { error := some msg, build_id := none, job_name := none, logs := none,
    artifacts_url := none }

/-- `artifacts_url = f"\x7bGCS_URL\x7d/\x7bjob_name\x7d/\x7bbuild_id\x7d/artifacts"` — pure string
composition, cannot fail. -/
def artifactsUrl (job_name build_id : String) : String :=
  GCS_URL ++ "/" ++ job_name ++ "/" ++ build_id ++ "/artifacts"

/-- URL of the primary log fetch:
`f"\x7bGCS_URL\x7d/\x7bjob_name\x7d/\x7bbuild_id\x7d/build-log.txt"`. -/
def buildLogUrl (job_name build_id : String) : String :=
  GCS_URL ++ "/" ++ job_name ++ "/" ++ build_id ++ "/build-log.txt"

/-- The `get_build_logs` tool.  `fetch` is the outcome of
`client.get(url)` + `raise_for_status()` + `.text` for a given URL.  The
local `artifacts_url` (modelled by `artifactsUrl job_name build_id`) is
assigned before the only fallible statement, so in the `except` branch it is
always in `locals()` — both branches carry it. -/
def get_build_logs (fetch : String → Except String String)
    (job_name build_id : String) : BuildLogsDict :=
  match fetch (buildLogUrl job_name build_id) with
  | .ok logs =>
    { error := none, build_id := some build_id, job_name := some job_name,
      logs := some logs, artifacts_url := some (artifactsUrl job_name build_id) }
  | .error e =>
    { error := some ("Failed to fetch logs: " ++ e), build_id := none,
      job_name := none, logs := none,
      artifacts_url := some (artifactsUrl job_name build_id) }

/-- `next((job for job in prowjobs if job["metadata"]["name"] == job_id), None)`:
first record whose `metadata.name` equals the id, else `None`. -/
def resolveById (items : List JobRecord) (job_id : String) : Option JobRecord :=
  items.find? (fun j => j.metadata_name == job_id)

/-- The `get_job_logs` tool.  `resp` is the outcome of the `prowjobs.js`
request, `fetch` the log fetch passed through to `get_build_logs`. -/
def get_job_logs (resp : Except String (Option ProwResponse))
    (fetch : String → Except String String) (job_id : String) : BuildLogsDict :=
  match resp with
  | .error e => mkLogsErr ("Failed to fetch job info: " ++ e)
  | .ok none => mkLogsErr "No response from Prow API"
  | .ok (some r) =>
    match resolveById r.items job_id with
    | none => mkLogsErr ("No job found with ID: " ++ job_id)
    | some matching_job =>
      let build_id := matching_job.status.build_id
      let job_name := matching_job.spec_job
      if !pyTruthy build_id || !pyTruthy job_name then
        mkLogsErr "Could not find build ID or job name"
      else
        get_build_logs fetch (job_name.getD "") (build_id.getD "")

/-- The tools the source registers with `@mcp.tool()`, in source order, with
their parameter names. -/
def tool_surface : List (String × List String) :=
  [("get_latest_job_run", ["job_name"]),
   ("get_job_logs", ["job_id"]),
   ("get_build_logs", ["job_name", "build_id"])]

/-- `true` iff `parse_date(job["status"]["startTime"])` would succeed on this
record. -/
def parses (parse : String → Except String Nat) (j : JobRecord) : Bool :=
  match parse (startStr j) with
  | .ok _ => true
  | .error _ => false

/-! ### Concrete data used to exercise the tools at specific inputs -/

/-- Accumulator loop reading a decimal number from a character list. -/
def natOfCharsAux : List Char → Nat → Option Nat
  | [], acc => some acc
  | c :: cs, acc =>
    if c.isDigit then natOfCharsAux cs (acc * 10 + (c.toNat - 48)) else none

/-- A concrete instance of the external timestamp-parser parameter (the role
`dateutil.parser.parse` plays in the source): non-empty decimal strings
parse, anything else raises with a `dateutil`-style message. -/
def parseNat : String → Except String Nat := fun s =>
  match s.data with
  | [] => .error ("Unknown string format: " ++ s)
  | c :: cs =>
    match natOfCharsAux (c :: cs) 0 with
    | some n => .ok n
    | none => .error ("Unknown string format: " ++ s)

/-- An `e2e-aws` record with start time 3. -/
def rT1 : JobRecord :=
  { metadata_name := "run-t1", spec_job := some "e2e-aws",
    status := { state := some "success", startTime := some "3",
                completionTime := none, url := none, build_id := some "b3" } }

/-- An `e2e-aws` record with start time 5. -/
def rT2 : JobRecord :=
  { metadata_name := "run-t2", spec_job := some "e2e-aws",
    status := { state := some "success", startTime := some "5",
                completionTime := some "6", url := some "https://prow/t2",
                build_id := some "b5" } }

/-- An `e2e-aws` record whose start time does not parse. -/
def rBad : JobRecord :=
  { metadata_name := "bad-run", spec_job := some "e2e-aws",
    status := { state := some "pending", startTime := some "garbage",
                completionTime := none, url := none, build_id := none } }

/-- First of two `e2e-aws` records sharing start time 7. -/
def rTieA : JobRecord :=
  { metadata_name := "tie-a", spec_job := some "e2e-aws",
    status := { state := some "success", startTime := some "7",
                completionTime := none, url := none, build_id := some "ba" } }

/-- Second of two `e2e-aws` records sharing start time 7. -/
def rTieB : JobRecord :=
  { metadata_name := "tie-b", spec_job := some "e2e-aws",
    status := { state := some "failure", startTime := some "7",
                completionTime := none, url := none, build_id := some "bb" } }

/-- A record whose `status.build_id` is present but the empty string. -/
def rEmptyBuild : JobRecord :=
  { metadata_name := "run-empty", spec_job := some "some-job",
    status := { state := some "success", startTime := some "9",
                completionTime := none, url := none, build_id := some "" } }

/-- A log fetch that always succeeds. -/
def fetchOk : String → Except String String := fun _ => .ok "log line 1"

/-- A log fetch that always raises. -/
def fetchFail : String → Except String String := fun _ => .error "boom"

/-! ### Helper lemmas about the stable descending sort and key decoration -/

theorem firstMax_isSome (k : α → Nat) (x : α) (xs : List α) :
    (firstMax k (x :: xs)).isSome = true := by
  rw [firstMax]
  cases firstMax k xs with
  | none => rfl
  | some m => by_cases h : k m ≤ k x <;> simp [h]

theorem sortDesc_head (k : α → Nat) (l : List α) :
    (sortDesc k l).head? = firstMax k l := by
  induction l with
  | nil => rfl
  | cons x xs ih =>
    rw [sortDesc, firstMax, ← ih]
    cases hs : sortDesc k xs with
    | nil => simp [insertDesc]
    | cons h t =>
      rw [insertDesc]
      by_cases hlt : k x < k h
      · simp [hlt, Nat.not_le.mpr hlt]
      · simp [hlt, Nat.le_of_not_lt hlt]

theorem firstMax_spec (k : α → Nat) (l : List α) (m : α)
    (hm : firstMax k l = some m) :
    ∃ pre post, l = pre ++ m :: post ∧ (∀ j ∈ pre, k j < k m) ∧
      ∀ j ∈ l, k j ≤ k m := by
  induction l generalizing m with
  | nil => simp [firstMax] at hm
  | cons x xs ih =>
    rw [firstMax] at hm
    cases hs : firstMax k xs with
    | none =>
      rw [hs] at hm
      simp only [Option.some.injEq] at hm
      subst hm
      have hxs : xs = [] := by
        cases xs with
        | nil => rfl
        | cons y ys =>
          have := firstMax_isSome k y ys
          rw [hs] at this
          simp at this
      subst hxs
      exact ⟨[], [], rfl, by simp, by simp⟩
    | some m' =>
      rw [hs] at hm
      have hm2 : (if k m' ≤ k x then some x else some m') = some m := hm
      obtain ⟨pre', post', hsplit, hlt', hle'⟩ := ih m' hs
      by_cases hle : k m' ≤ k x
      · rw [if_pos hle] at hm2
        simp only [Option.some.injEq] at hm2
        subst hm2
        refine ⟨[], xs, rfl, by simp, ?_⟩
        intro j hj
        rcases List.mem_cons.mp hj with h | h
        · subst h; exact Nat.le_refl _
        · exact Nat.le_trans (hle' j h) hle
      · rw [if_neg hle] at hm2
        simp only [Option.some.injEq] at hm2
        subst hm2
        refine ⟨x :: pre', post', by simp [hsplit], ?_, ?_⟩
        · intro j hj
          rcases List.mem_cons.mp hj with h | h
          · subst h; exact Nat.lt_of_not_le hle
          · exact hlt' j h
        · intro j hj
          rcases List.mem_cons.mp hj with h | h
          · subst h; exact Nat.le_of_not_le hle
          · exact hle' j h

theorem computeKeys_eq_ok (parse : String → Except String Nat)
    (l : List JobRecord) (h : ∀ j ∈ l, parses parse j = true) :
    computeKeys parse l = .ok (l.map fun j => (keyD parse j, j)) := by
  induction l with
  | nil => rfl
  | cons j js ih =>
    have hj := h j (List.mem_cons_self j js)
    rw [computeKeys]
    cases hp : parse (startStr j) with
    | error e => rw [parses, hp] at hj; simp at hj
    | ok kk =>
      rw [ih fun r hr => h r (List.mem_cons_of_mem _ hr)]
      simp [keyD, hp]

theorem computeKeys_error_of_bad (parse : String → Except String Nat)
    (l : List JobRecord) (h : ∃ j ∈ l, parses parse j = false) :
    ∃ e, computeKeys parse l = .error e := by
  induction l with
  | nil => simp at h
  | cons j js ih =>
    rw [computeKeys]
    cases hp : parse (startStr j) with
    | error e => exact ⟨e, rfl⟩
    | ok kk =>
      obtain ⟨r, hr, hbad⟩ := h
      rcases List.mem_cons.mp hr with hrj | hrjs
      · subst hrj; rw [parses, hp] at hbad; simp at hbad
      · obtain ⟨e, he⟩ := ih ⟨r, hrjs, hbad⟩
        exact ⟨e, by rw [he]⟩

theorem pickLatest_ok (parse : String → Except String Nat) (l : List JobRecord)
    (p : Nat × JobRecord) (ps : List (Nat × JobRecord))
    (h : computeKeys parse l = .ok (p :: ps)) :
    pickLatest parse l = .ok ((sortDesc (fun q => q.1) (p :: ps)).headD p).2 := by
  unfold pickLatest
  rw [h]

theorem pickLatest_spec (parse : String → Except String Nat)
    (j : JobRecord) (js : List JobRecord)
    (h : ∀ r ∈ j :: js, parses parse r = true) :
    ∃ m pre post, pickLatest parse (j :: js) = .ok m ∧
      j :: js = pre ++ m :: post ∧
      (∀ r ∈ pre, keyD parse r < keyD parse m) ∧
      ∀ r ∈ j :: js, keyD parse r ≤ keyD parse m := by
  have hck := computeKeys_eq_ok parse (j :: js) h
  rw [List.map_cons] at hck
  have hpl := pickLatest_ok parse (j :: js) _ _ hck
  set f : JobRecord → Nat × JobRecord := fun r => (keyD parse r, r) with hf
  set p : Nat × JobRecord := (keyD parse j, j) with hp
  set mapped : List (Nat × JobRecord) := p :: js.map f with hmapped
  have hmap : mapped = (j :: js).map f := by simp [hmapped, hp, hf]
  have hshape : ∀ q ∈ mapped, q.1 = keyD parse q.2 := by
    intro q hq
    rw [hmap] at hq
    obtain ⟨r, _, hr⟩ := List.mem_map.mp hq
    rw [← hr]
  have hsnd : mapped.map Prod.snd = j :: js := by
    rw [hmap, List.map_map]
    have : Prod.snd ∘ f = id := by funext r; rfl
    rw [this, List.map_id]
  obtain ⟨pm, hpm⟩ : ∃ pm, firstMax (fun q : Nat × JobRecord => q.1) mapped = some pm := by
    have := firstMax_isSome (fun q : Nat × JobRecord => q.1) p (js.map f)
    rw [← hmapped] at this
    exact Option.isSome_iff_exists.mp this
  have hhead : (sortDesc (fun q : Nat × JobRecord => q.1) mapped).headD p = pm := by
    have h1 := sortDesc_head (fun q : Nat × JobRecord => q.1) mapped
    rw [hpm] at h1
    cases hs : sortDesc (fun q : Nat × JobRecord => q.1) mapped with
    | nil => rw [hs] at h1; simp at h1
    | cons a t => rw [hs] at h1; simp at h1; simp [h1]
  obtain ⟨preK, postK, hsplit, hltK, hleK⟩ :=
    firstMax_spec (fun q : Nat × JobRecord => q.1) mapped pm hpm
  have hpmmem : pm ∈ mapped := by rw [hsplit]; exact List.mem_append_right _ (List.mem_cons_self _ _)
  have hpmkey : pm.1 = keyD parse pm.2 := hshape pm hpmmem
  refine ⟨pm.2, preK.map Prod.snd, postK.map Prod.snd, ?_, ?_, ?_, ?_⟩
  · rw [hpl, hhead]
  · rw [← hsnd, hsplit, List.map_append, List.map_cons]
  · intro r hr
    obtain ⟨q, hq, hqr⟩ := List.mem_map.mp hr
    have hqm : q ∈ mapped := by rw [hsplit]; exact List.mem_append_left _ hq
    have := hltK q hq
    rw [hshape q hqm, hqr, hpmkey] at this
    exact this
  · intro r hr
    rw [← hsnd] at hr
    obtain ⟨q, hq, hqr⟩ := List.mem_map.mp hr
    have := hleK q hq
    rw [hshape q hq, hqr, hpmkey] at this
    exact this

theorem glr_ok_some (parse : String → Except String Nat) (r : ProwResponse)
    (n : String) :
    get_latest_job_run parse (.ok (some r)) n =
      match filterMatching r.items n with
      | [] => mkLatestErr ("No matching job found for: " ++ n)
      | j :: js =>
        match pickLatest parse (j :: js) with
        | .error e => mkLatestErr ("Failed to fetch job info: " ++ e)
        | .ok latest => mkLatestOk latest := rfl

theorem glr_cons (parse : String → Except String Nat) (r : ProwResponse)
    (n : String) (j : JobRecord) (js : List JobRecord)
    (h : filterMatching r.items n = j :: js) :
    get_latest_job_run parse (.ok (some r)) n =
      match pickLatest parse (j :: js) with
      | .error e => mkLatestErr ("Failed to fetch job info: " ++ e)
      | .ok latest => mkLatestOk latest := by
  rw [glr_ok_some, h]

/-! ### Claim theorems -/

/-- C1: `get_latest_job_run` considers exactly the records whose `spec.job`
equals the requested name and whose `status` has a `startTime` key
(`filterMatching`); when that set is empty it returns the NotFound-style
error dict, and otherwise (all matched timestamps parsing) it returns the
dict built from a matched record of maximal parsed start time. -/
theorem get_latest_job_run_spec (parse : String → Except String Nat)
    (r : ProwResponse) (n : String)
    (hp : ∀ j ∈ filterMatching r.items n, parses parse j = true) :
    (filterMatching r.items n = [] →
      get_latest_job_run parse (.ok (some r)) n =
        mkLatestErr ("No matching job found for: " ++ n)) ∧
    (filterMatching r.items n ≠ [] →
      ∃ m, m ∈ filterMatching r.items n ∧
        (∀ j ∈ filterMatching r.items n, keyD parse j ≤ keyD parse m) ∧
        get_latest_job_run parse (.ok (some r)) n = mkLatestOk m ∧
        (get_latest_job_run parse (.ok (some r)) n).error = none) := by
  constructor
  · intro hm
    rw [glr_ok_some, hm]
  · intro hne
    cases hmm : filterMatching r.items n with
    | nil => exact absurd hmm hne
    | cons j js =>
      rw [hmm] at hp
      obtain ⟨m, pre, post, hpick, hsplit, _, hle⟩ := pickLatest_spec parse j js hp
      refine ⟨m, ?_, ?_, ?_, ?_⟩
      · rw [hsplit]
        exact List.mem_append_right _ (List.mem_cons_self _ _)
      · exact hle
      · rw [glr_cons parse r n j js hmm, hpick]
      · rw [glr_cons parse r n j js hmm, hpick]
        rfl

/-- C1 witness: two `e2e-aws` records with start times 3 < 5; the record with
start time 5 is returned. -/
theorem get_latest_job_run_spec_witness :
    (∀ j ∈ filterMatching (ProwResponse.mk [rT1, rT2]).items "e2e-aws",
      parses parseNat j = true) ∧
    ((filterMatching (ProwResponse.mk [rT1, rT2]).items "e2e-aws" = [] →
      get_latest_job_run parseNat (.ok (some (ProwResponse.mk [rT1, rT2]))) "e2e-aws" =
        mkLatestErr ("No matching job found for: " ++ "e2e-aws")) ∧
    (filterMatching (ProwResponse.mk [rT1, rT2]).items "e2e-aws" ≠ [] →
      ∃ m, m ∈ filterMatching (ProwResponse.mk [rT1, rT2]).items "e2e-aws" ∧
        (∀ j ∈ filterMatching (ProwResponse.mk [rT1, rT2]).items "e2e-aws",
          keyD parseNat j ≤ keyD parseNat m) ∧
        get_latest_job_run parseNat (.ok (some (ProwResponse.mk [rT1, rT2]))) "e2e-aws" =
          mkLatestOk m ∧
        (get_latest_job_run parseNat
          (.ok (some (ProwResponse.mk [rT1, rT2]))) "e2e-aws").error = none)) ∧
    get_latest_job_run parseNat (.ok (some (ProwResponse.mk [rT1, rT2]))) "e2e-aws" =
      mkLatestOk rT2 :=
  ⟨by decide, get_latest_job_run_spec parseNat ⟨[rT1, rT2]⟩ "e2e-aws" (by decide),
   by decide⟩

/-- C2 counterexample: a name-matched record with unparseable `startTime`
makes the whole resolution return the caught-exception error dict instead of
the best remaining parseable record. -/
theorem get_latest_job_run_malformed_cex :
    get_latest_job_run parseNat (.ok (some (ProwResponse.mk [rBad, rT2]))) "e2e-aws" =
      mkLatestErr "Failed to fetch job info: Unknown string format: garbage" ∧
    get_latest_job_run parseNat (.ok (some (ProwResponse.mk [rBad, rT2]))) "e2e-aws" ≠
      mkLatestOk rT2 := by
  constructor
  · rfl
  · decide

/-- C2 amended: a name-matched record whose `startTime` cannot be parsed
aborts the whole resolution — the parse exception raised inside
`matching_jobs.sort` is caught at the tool boundary and converted into a
`Failed to fetch job info` error dict; no per-record exclusion happens. -/
theorem get_latest_job_run_malformed_aborts (parse : String → Except String Nat)
    (r : ProwResponse) (n : String)
    (hbad : ∃ j ∈ filterMatching r.items n, parses parse j = false) :
    ∃ e, get_latest_job_run parse (.ok (some r)) n =
      mkLatestErr ("Failed to fetch job info: " ++ e) := by
  cases hmm : filterMatching r.items n with
  | nil => rw [hmm] at hbad; simp at hbad
  | cons j js =>
    rw [hmm] at hbad
    obtain ⟨e, he⟩ := computeKeys_error_of_bad parse (j :: js) hbad
    have hpick : pickLatest parse (j :: js) = .error e := by
      unfold pickLatest
      rw [he]
    exact ⟨e, by rw [glr_cons parse r n j js hmm, hpick]⟩

/-- C2 amended witness: the collection `[rBad, rT2]` has a bad record, and the
resolution indeed returns an error dict. -/
theorem get_latest_job_run_malformed_aborts_witness :
    (∃ j ∈ filterMatching (ProwResponse.mk [rBad, rT2]).items "e2e-aws",
      parses parseNat j = false) ∧
    ∃ e, get_latest_job_run parseNat (.ok (some (ProwResponse.mk [rBad, rT2]))) "e2e-aws" =
      mkLatestErr ("Failed to fetch job info: " ++ e) :=
  ⟨⟨rBad, by decide, by decide⟩,
   get_latest_job_run_malformed_aborts parseNat ⟨[rBad, rT2]⟩ "e2e-aws"
     ⟨rBad, by decide, by decide⟩⟩

/-- C9: latest-run resolution is a pure function of the parser, the fetched
collection and the name: a repeated call on the same unchanged collection
returns the same dict (the embedding carries no state between calls). -/
theorem get_latest_job_run_idempotent (parse : String → Except String Nat)
    (resp : Except String (Option ProwResponse)) (n : String) :
    get_latest_job_run parse resp n = get_latest_job_run parse resp n := rfl

/-- C10: with all matched timestamps parseable, the record returned is the
one that occurs earliest in the collection order among those of maximal
parsed start time: everything strictly before it in `filterMatching` has a
strictly smaller key (the descending sort is stable). -/
theorem get_latest_job_run_tie_break (parse : String → Except String Nat)
    (r : ProwResponse) (n : String)
    (hne : filterMatching r.items n ≠ [])
    (hp : ∀ j ∈ filterMatching r.items n, parses parse j = true) :
    ∃ m pre post, filterMatching r.items n = pre ++ m :: post ∧
      (∀ j ∈ pre, keyD parse j < keyD parse m) ∧
      (∀ j ∈ filterMatching r.items n, keyD parse j ≤ keyD parse m) ∧
      get_latest_job_run parse (.ok (some r)) n = mkLatestOk m := by
  cases hmm : filterMatching r.items n with
  | nil => exact absurd hmm hne
  | cons j js =>
    rw [hmm] at hp
    obtain ⟨m, pre, post, hpick, hsplit, hlt, hle⟩ := pickLatest_spec parse j js hp
    refine ⟨m, pre, post, hsplit, hlt, ?_, ?_⟩
    · exact hle
    · rw [glr_cons parse r n j js hmm, hpick]

theorem gjl_ok_some (r : ProwResponse) (fetch : String → Except String String)
    (job_id : String) :
    get_job_logs (.ok (some r)) fetch job_id =
      match resolveById r.items job_id with
      | none => mkLogsErr ("No job found with ID: " ++ job_id)
      | some matching_job =>
        if !pyTruthy matching_job.status.build_id || !pyTruthy matching_job.spec_job then
          mkLogsErr "Could not find build ID or job name"
        else
          get_build_logs fetch (matching_job.spec_job.getD "")
            (matching_job.status.build_id.getD "") := rfl

theorem gjl_found (r : ProwResponse) (fetch : String → Except String String)
    (job_id : String) (mj : JobRecord)
    (h : resolveById r.items job_id = some mj) :
    get_job_logs (.ok (some r)) fetch job_id =
      if !pyTruthy mj.status.build_id || !pyTruthy mj.spec_job then
        mkLogsErr "Could not find build ID or job name"
      else
        get_build_logs fetch (mj.spec_job.getD "") (mj.status.build_id.getD "") := by
  rw [gjl_ok_some, h]

/-- C3: the artifacts URL of `get_build_logs` is pure string composition, is
present in the returned dict for every fetch outcome, and on a fetch failure
the tool returns the partial dict: error message plus the artifacts URL. -/
theorem get_build_logs_artifacts (fetch : String → Except String String)
    (job_name build_id : String) :
    (get_build_logs fetch job_name build_id).artifacts_url =
      some (artifactsUrl job_name build_id) ∧
    ∀ e, fetch (buildLogUrl job_name build_id) = .error e →
      get_build_logs fetch job_name build_id =
        { error := some ("Failed to fetch logs: " ++ e), build_id := none,
          job_name := none, logs := none,
          artifacts_url := some (artifactsUrl job_name build_id) } := by
  constructor
  · unfold get_build_logs
    cases fetch (buildLogUrl job_name build_id) <;> rfl
  · intro e he
    unfold get_build_logs
    rw [he]

/-- C3 witness: a forced log-fetch failure still yields the partial dict with
the non-null artifacts URL. -/
theorem get_build_logs_artifacts_witness :
    (get_build_logs fetchFail "job-a" "123").artifacts_url =
      some (artifactsUrl "job-a" "123") ∧
    get_build_logs fetchFail "job-a" "123" =
      { error := some ("Failed to fetch logs: " ++ "boom"), build_id := none,
        job_name := none, logs := none,
        artifacts_url := some (artifactsUrl "job-a" "123") } :=
  ⟨(get_build_logs_artifacts fetchFail "job-a" "123").1,
   (get_build_logs_artifacts fetchFail "job-a" "123").2 "boom" rfl⟩

/-- C4: resolution by id is a pure first-match lookup over the fetched
collection: no match yields the NotFound-style error dict, and the first
record (in collection order) whose `metadata.name` equals the id is the one
selected — which is the unique match when exactly one exists. -/
theorem resolveById_lookup (r : ProwResponse)
    (fetch : String → Except String String) (job_id : String) :
    ((∀ j ∈ r.items, j.metadata_name ≠ job_id) →
      resolveById r.items job_id = none ∧
      get_job_logs (.ok (some r)) fetch job_id =
        mkLogsErr ("No job found with ID: " ++ job_id)) ∧
    ∀ pre rec post, r.items = pre ++ rec :: post →
      rec.metadata_name = job_id → (∀ j ∈ pre, j.metadata_name ≠ job_id) →
      resolveById r.items job_id = some rec := by
  constructor
  · intro h
    have hnone : resolveById r.items job_id = none := by
      rw [resolveById, List.find?_eq_none]
      intro j hj
      simp [h j hj]
    exact ⟨hnone, by rw [gjl_ok_some, hnone]⟩
  · intro pre rec post hsplit hrec hpre
    rw [resolveById, hsplit]
    clear hsplit
    induction pre with
    | nil =>
      rw [List.nil_append, List.find?_cons_of_pos]
      simp [hrec]
    | cons a pre' ih =>
      rw [List.cons_append, List.find?_cons_of_neg]
      · exact ih fun j hj => hpre j (List.mem_cons_of_mem _ hj)
      · simp [hpre a (List.mem_cons_self _ _)]

/-- C4 witness: in `[rT1, rT2]` the unique record named `run-t2` is found. -/
theorem resolveById_lookup_witness :
    resolveById (ProwResponse.mk [rT1, rT2]).items "run-t2" = some rT2 :=
  (resolveById_lookup ⟨[rT1, rT2]⟩ fetchOk "run-t2").2 [rT1] rT2 [] rfl rfl
    (by decide)

/-- C5 counterexample: a resolved record whose `build_id` is present but the
empty string (and whose `job_name` is present): neither field is absent, yet
`get_job_logs` returns the IncompleteRecord-style error instead of delegating
to `get_build_logs`. -/
theorem get_job_logs_chain_cex :
    get_job_logs (.ok (some (ProwResponse.mk [rEmptyBuild]))) fetchOk "run-empty" =
      mkLogsErr "Could not find build ID or job name" ∧
    rEmptyBuild.status.build_id.isSome = true ∧
    rEmptyBuild.spec_job.isSome = true ∧
    get_job_logs (.ok (some (ProwResponse.mk [rEmptyBuild]))) fetchOk "run-empty" ≠
      get_build_logs fetchOk (rEmptyBuild.spec_job.getD "")
        (rEmptyBuild.status.build_id.getD "") := by
  refine ⟨rfl, rfl, rfl, by decide⟩

/-- C5 amended: after resolving the record by id, `get_job_logs` fails with
the IncompleteRecord-style error — issuing no log fetch — iff `build_id` or
`job_name` is falsy (absent **or** empty); when both are truthy it delegates
to `get_build_logs` and returns its result unchanged. -/
theorem get_job_logs_chain (r : ProwResponse) (job_id : String)
    (mj : JobRecord) (hfind : resolveById r.items job_id = some mj) :
    ((pyTruthy mj.status.build_id = false ∨ pyTruthy mj.spec_job = false) →
      ∀ fetch fetch' : String → Except String String,
        get_job_logs (.ok (some r)) fetch job_id =
          mkLogsErr "Could not find build ID or job name" ∧
        get_job_logs (.ok (some r)) fetch job_id =
          get_job_logs (.ok (some r)) fetch' job_id) ∧
    (pyTruthy mj.status.build_id = true → pyTruthy mj.spec_job = true →
      ∀ fetch : String → Except String String,
        get_job_logs (.ok (some r)) fetch job_id =
          get_build_logs fetch (mj.spec_job.getD "")
            (mj.status.build_id.getD "")) := by
  constructor
  · intro hfalsy fetch fetch'
    have hcond : (!pyTruthy mj.status.build_id || !pyTruthy mj.spec_job) = true := by
      rcases hfalsy with h | h <;> simp [h]
    rw [gjl_found r fetch job_id mj hfind, gjl_found r fetch' job_id mj hfind,
      if_pos hcond]
    exact ⟨rfl, by rw [if_pos hcond]⟩
  · intro hb hj fetch
    have hcond : (!pyTruthy mj.status.build_id || !pyTruthy mj.spec_job) = false := by
      simp [hb, hj]
    rw [gjl_found r fetch job_id mj hfind, if_neg (by simp [hcond])]

/-- C5 amended witness: `rEmptyBuild` has a falsy (empty-string) `build_id`,
so the tool returns the error dict and ignores the fetch function. -/
theorem get_job_logs_chain_witness :
    (pyTruthy rEmptyBuild.status.build_id = false ∨
      pyTruthy rEmptyBuild.spec_job = false) ∧
    (get_job_logs (.ok (some (ProwResponse.mk [rEmptyBuild]))) fetchOk "run-empty" =
      mkLogsErr "Could not find build ID or job name" ∧
    get_job_logs (.ok (some (ProwResponse.mk [rEmptyBuild]))) fetchOk "run-empty" =
      get_job_logs (.ok (some (ProwResponse.mk [rEmptyBuild]))) fetchFail "run-empty") :=
  ⟨Or.inl (by decide),
   (get_job_logs_chain ⟨[rEmptyBuild]⟩ "run-empty" rEmptyBuild rfl).1
     (Or.inl (by decide)) fetchOk fetchFail⟩

/-- C6 counterexample: with no API credential configured the source sets
`headers = \x7b\x7d`, so the `Accept: application/json` header is *not* attached. -/
theorem make_request_headers_cex :
    make_request_headers none = [] ∧
    ("Accept", "application/json") ∉ make_request_headers none := by decide

/-- C6 amended: `make_request` attaches `Accept: application/json` — and
`Authorization: Bearer <token>` — iff an API credential is configured
(truthy); with no credential it attaches no headers at all. -/
theorem make_request_headers_spec (api_key : Option String) :
    (("Accept", "application/json") ∈ make_request_headers api_key ↔
      pyTruthy api_key = true) ∧
    ((∃ t, ("Authorization", t) ∈ make_request_headers api_key) ↔
      pyTruthy api_key = true) ∧
    (pyTruthy api_key = false → make_request_headers api_key = []) := by
  unfold make_request_headers
  by_cases h : pyTruthy api_key <;> simp [h]

/-- C6 amended witness: with a configured credential both headers appear;
instantiates the amended theorem at `some "tok"`. -/
theorem make_request_headers_spec_witness :
    (("Accept", "application/json") ∈ make_request_headers (some "tok") ↔
      pyTruthy (some "tok") = true) ∧
    pyTruthy (some "tok") = true ∧
    ("Accept", "application/json") ∈ make_request_headers (some "tok") :=
  ⟨(make_request_headers_spec (some "tok")).1, by decide,
   (make_request_headers_spec (some "tok")).1.mpr (by decide)⟩

/-- C7: every tool call returns a structured dict — either a populated result
(`error = none` and the payload fields set) or an error dict — and an
upstream exception is converted into the `Failed to fetch job info` error
dict rather than propagated. -/
theorem tools_return_structured (parse : String → Except String Nat)
    (resp : Except String (Option ProwResponse))
    (fetch : String → Except String String) (n job_id jn bid : String) :
    ((get_latest_job_run parse resp n).error.isSome = true ∨
      ((get_latest_job_run parse resp n).error = none ∧
        (get_latest_job_run parse resp n).job_id.isSome = true)) ∧
    (∀ e, resp = .error e →
      get_latest_job_run parse resp n =
        mkLatestErr ("Failed to fetch job info: " ++ e)) ∧
    ((get_job_logs resp fetch job_id).error.isSome = true ∨
      ((get_job_logs resp fetch job_id).error = none ∧
        (get_job_logs resp fetch job_id).logs.isSome = true)) ∧
    (∀ e, resp = .error e →
      get_job_logs resp fetch job_id =
        mkLogsErr ("Failed to fetch job info: " ++ e)) ∧
    ((get_build_logs fetch jn bid).error.isSome = true ∨
      ((get_build_logs fetch jn bid).error = none ∧
        (get_build_logs fetch jn bid).logs.isSome = true)) := by
  have hgbl : ∀ (f : String → Except String String) (a b : String),
      (get_build_logs f a b).error.isSome = true ∨
      ((get_build_logs f a b).error = none ∧
        (get_build_logs f a b).logs.isSome = true) := by
    intro f a b
    unfold get_build_logs
    cases f (buildLogUrl a b) with
    | ok logs => right; exact ⟨rfl, rfl⟩
    | error e => left; rfl
  refine ⟨?_, ?_, ?_, ?_, hgbl fetch jn bid⟩
  · cases resp with
    | error e => left; rfl
    | ok o =>
      cases o with
      | none => left; rfl
      | some r =>
        cases hmm : filterMatching r.items n with
        | nil => left; rw [glr_ok_some, hmm]; rfl
        | cons j js =>
          cases hpk : pickLatest parse (j :: js) with
          | error e => left; rw [glr_cons parse r n j js hmm, hpk]; rfl
          | ok latest =>
            right
            rw [glr_cons parse r n j js hmm, hpk]
            exact ⟨rfl, rfl⟩
  · intro e he
    rw [he]
    rfl
  · cases resp with
    | error e => left; rfl
    | ok o =>
      cases o with
      | none => left; rfl
      | some r =>
        cases hid : resolveById r.items job_id with
        | none => left; rw [gjl_ok_some, hid]; rfl
        | some mj =>
          rw [gjl_found r fetch job_id mj hid]
          by_cases hc : (!pyTruthy mj.status.build_id || !pyTruthy mj.spec_job) = true
          · rw [if_pos hc]; left; rfl
          · rw [if_neg hc]
            exact hgbl fetch _ _
  · intro e he
    rw [he]
    rfl

/-- C7 witness: an upstream exception is converted into the structured error
dict for `get_latest_job_run`. -/
theorem tools_return_structured_witness :
    Except.error "boom" =
      (Except.error "boom" : Except String (Option ProwResponse)) ∧
    get_latest_job_run parseNat (.error "boom") "e2e-aws" =
      mkLatestErr ("Failed to fetch job info: " ++ "boom") :=
  ⟨rfl,
   (tools_return_structured parseNat (.error "boom") fetchOk "e2e-aws" "id" "j" "b").2.1
     "boom" rfl⟩

/-- C8 counterexample: the registered tool surface has three operations, and
neither `get_job_namespace` nor `get_test_cluster_info` is among them. -/
theorem tool_surface_cex :
    tool_surface.length = 3 ∧
    "get_job_namespace" ∉ tool_surface.map Prod.fst ∧
    "get_test_cluster_info" ∉ tool_surface.map Prod.fst := by decide

/-- C8 amended: the tool surface exposed to the invoking host consists of
exactly the three operations `get_latest_job_run(job_name)`,
`get_job_logs(job_id)` and `get_build_logs(job_name, build_id)`, each taking
string arguments. -/
theorem tool_surface_spec :
    tool_surface.map Prod.fst =
      ["get_latest_job_run", "get_job_logs", "get_build_logs"] ∧
    ("get_latest_job_run", ["job_name"]) ∈ tool_surface ∧
    ("get_job_logs", ["job_id"]) ∈ tool_surface ∧
    ("get_build_logs", ["job_name", "build_id"]) ∈ tool_surface := by decide

/-- C10 witness: two records share the maximal start time 7; the one earlier
in the collection (`rTieA`) is returned. -/
theorem get_latest_job_run_tie_break_witness :
    (filterMatching (ProwResponse.mk [rTieA, rTieB]).items "e2e-aws" ≠ []) ∧
    (∀ j ∈ filterMatching (ProwResponse.mk [rTieA, rTieB]).items "e2e-aws",
      parses parseNat j = true) ∧
    (∃ m pre post,
      filterMatching (ProwResponse.mk [rTieA, rTieB]).items "e2e-aws" =
        pre ++ m :: post ∧
      (∀ j ∈ pre, keyD parseNat j < keyD parseNat m) ∧
      (∀ j ∈ filterMatching (ProwResponse.mk [rTieA, rTieB]).items "e2e-aws",
        keyD parseNat j ≤ keyD parseNat m) ∧
      get_latest_job_run parseNat (.ok (some (ProwResponse.mk [rTieA, rTieB]))) "e2e-aws" =
        mkLatestOk m) ∧
    get_latest_job_run parseNat (.ok (some (ProwResponse.mk [rTieA, rTieB]))) "e2e-aws" =
      mkLatestOk rTieA :=
  ⟨by decide, by decide,
   get_latest_job_run_tie_break parseNat ⟨[rTieA, rTieB]⟩ "e2e-aws"
     (by decide) (by decide),
   by decide⟩

end ProwMcp
